import Mathlib

/-!
Verification of the SOMAS persistent project state store
(src/somas/core/state_manager.py) against its natural-language
specification.  The Python operations are shallowly embedded as
executable Lean functions over explicit state; file systems are
modelled as maps from path names to optional file contents, and
fallible operations return Except.
-/

namespace Somas

/-! ## Project id validation (StateManager._validate_project_id)

The source checks re.match with pattern anchor-project-dash-digits-dollar.
Python's dollar anchor matches at the end of the string or just before a
single trailing newline, so the match succeeds both on "project-<digits>"
and on "project-<digits>\n".  Python's digit class in a str pattern is the
full set of Unicode decimal digits (general category Nd), not just ASCII;
it is embedded below as the explicit code-point range table of category Nd,
extracted from CPython's unicodedata (Unicode 14.0, CPython 3.11) and
checked there to coincide exactly with what the re digit class accepts. -/

/-- Code-point ranges of the Unicode general category Nd (decimal digits),
which is exactly the set of characters Python's re digit class matches in a
str pattern. -/
def ndDigitRanges : List (Nat × Nat) :=
  [(0x30, 0x39), (0x660, 0x669), (0x6f0, 0x6f9), (0x7c0, 0x7c9),
   (0x966, 0x96f), (0x9e6, 0x9ef), (0xa66, 0xa6f), (0xae6, 0xaef),
   (0xb66, 0xb6f), (0xbe6, 0xbef), (0xc66, 0xc6f), (0xce6, 0xcef),
   (0xd66, 0xd6f), (0xde6, 0xdef), (0xe50, 0xe59), (0xed0, 0xed9),
   (0xf20, 0xf29), (0x1040, 0x1049), (0x1090, 0x1099), (0x17e0, 0x17e9),
   (0x1810, 0x1819), (0x1946, 0x194f), (0x19d0, 0x19d9), (0x1a80, 0x1a89),
   (0x1a90, 0x1a99), (0x1b50, 0x1b59), (0x1bb0, 0x1bb9), (0x1c40, 0x1c49),
   (0x1c50, 0x1c59), (0xa620, 0xa629), (0xa8d0, 0xa8d9), (0xa900, 0xa909),
   (0xa9d0, 0xa9d9), (0xa9f0, 0xa9f9), (0xaa50, 0xaa59), (0xabf0, 0xabf9),
   (0xff10, 0xff19), (0x104a0, 0x104a9), (0x10d30, 0x10d39),
   (0x11066, 0x1106f), (0x110f0, 0x110f9), (0x11136, 0x1113f),
   (0x111d0, 0x111d9), (0x112f0, 0x112f9), (0x11450, 0x11459),
   (0x114d0, 0x114d9), (0x11650, 0x11659), (0x116c0, 0x116c9),
   (0x11730, 0x11739), (0x118e0, 0x118e9), (0x11950, 0x11959),
   (0x11c50, 0x11c59), (0x11d50, 0x11d59), (0x11da0, 0x11da9),
   (0x16a60, 0x16a69), (0x16ac0, 0x16ac9), (0x16b50, 0x16b59),
   (0x1d7ce, 0x1d7ff), (0x1e140, 0x1e149), (0x1e2f0, 0x1e2f9),
   (0x1e950, 0x1e959), (0x1fbf0, 0x1fbf9)]

/-- Python's re digit class over str: a character of Unicode category Nd. -/
def isPyDigit (c : Char) : Bool :=
  ndDigitRanges.any (fun r => r.1 ≤ c.toNat && c.toNat ≤ r.2)

def pidPat : List Char := ['p', 'r', 'o', 'j', 'e', 'c', 't', '-']

/-- Embedding of re.match applied to the project-id pattern: the input must
start with "project-", continue with one or more digits, and then end either
immediately or with one final newline (Python dollar-anchor semantics). -/
def reMatchProjectId (s : String) : Bool :=
  pidPat.isPrefixOf s.toList &&
    (!((s.toList.drop 8).takeWhile isPyDigit).isEmpty &&
      (((s.toList.drop 8).dropWhile isPyDigit).isEmpty ||
        (s.toList.drop 8).dropWhile isPyDigit = ['\x0a']))

/-- StateManager._validate_project_id: returns True on a match, raises
ValueError (modelled as Except.error) otherwise. -/
def validate_project_id (id : String) : Except String Bool :=
  if reMatchProjectId id then Except.ok true
  else Except.error ("Invalid project ID format: " ++ id)

/-- The exact-form predicate the specification describes: the id is
"project-" followed by one or more digits and nothing else at all. -/
def specExactProjectId (s : String) : Bool :=
  pidPat.isPrefixOf s.toList &&
    (!(s.toList.drop 8).isEmpty && (s.toList.drop 8).all isPyDigit)

/-! ## Safe path resolution (StateManager._get_safe_project_path)

Paths are modelled as lists of components.  Path.resolve is modelled as
lexical normalization (the dot-dot and dot components are eliminated); this
matches the real resolve under the claims' hypothesis that no symbolic link
escape exists.  pathlib's slash operator splits a string argument on the
path separator, and relative_to succeeds exactly when the base's component
list is a prefix of the path's. -/

def normStep (acc : List String) (c : String) : List String :=
  if c = ".." then acc.dropLast
  else if c = "." ∨ c = "" then acc
  else acc ++ [c]

/-- Lexical canonicalization of an absolute path given as components. -/
def normalizeP (p : List String) : List String := p.foldl normStep []

/-- Component splitter on the path separator character. -/
def splitComps : List Char → List (List Char)
  | [] => [[]]
  | c :: t =>
    if c = '/' then [] :: splitComps t
    else
      match splitComps t with
      | [] => [[c]]
      | h :: r => (c :: h) :: r

/-- pathlib splits a string operand of the slash operator on the separator. -/
def splitId (id : String) : List String :=
  (splitComps id.toList).map (fun cs => String.mk cs)

/-- StateManager._get_safe_project_path: validate the id, resolve
root slash id, and require the result to stay below the resolved root. -/
def get_safe_project_path (rootResolved : List String) (id : String) :
    Except String (List String) :=
  match validate_project_id id with
  | Except.error e => Except.error e
  | Except.ok _ =>
    let projectPath := normalizeP (rootResolved ++ splitId id)
    if rootResolved.isPrefixOf projectPath then Except.ok projectPath
    else Except.error ("Path traversal attempt detected")

/-! ## Atomic whole-file writes (StateManager._atomic_write_json)

The directory is modelled as a map from file names to optional contents.
The code derives the temporary name with pathlib's with_suffix, writes the
serialized document there, and renames it over the target; any exception
between those steps triggers the handler that unlinks the temporary file
and re-raises.  Failure injection: the dump can fail (possibly leaving
partial bytes in the temporary file) or the rename can fail (rename is
atomic, so the destination is untouched in that case). -/

def lastIdxOf (c : Char) : List Char → Option Nat
  | [] => none
  | a :: t =>
    match lastIdxOf c t with
    | some i => some (i + 1)
    | none => if a = c then some 0 else none

/-- pathlib's with_suffix applied with the tmp suffix: the final component's
extension (the part from its last interior dot) is replaced, or the suffix is
appended when the component has no extension. -/
def pyWithSuffixTmp (p : String) : String :=
  let cs := p.toList
  let nameStart : Nat :=
    match lastIdxOf '/' cs with
    | some j => j + 1
    | none => 0
  match lastIdxOf '.' cs with
  | some i =>
    if nameStart < i then String.mk (cs.take i ++ ".tmp".toList)
    else String.mk (cs ++ ".tmp".toList)
  | none => String.mk (cs ++ ".tmp".toList)

/-- Injected failure point inside the atomic write: the serialization into
the temporary file fails (leaving it absent or holding partial bytes), or
the final rename fails. -/
inductive WriteFail (δ : Type) : Type
  | duringSerialize : Option δ → WriteFail δ
  | duringRename : WriteFail δ

def fsSet {δ : Type} (fs : String → Option δ) (p : String) (v : Option δ) :
    String → Option δ :=
  fun q => if q = p then v else fs q

/-- StateManager._atomic_write_json on a directory map: returns the
resulting directory contents and whether the call succeeded. -/
def atomic_write_json {δ : Type} (fs : String → Option δ) (path : String) (doc : δ)
    (outcome : Option (WriteFail δ)) : (String → Option δ) × Bool :=
  let tmp := pyWithSuffixTmp path
  match outcome with
  | none =>
    (fsSet (fsSet fs tmp none) path (some doc), true)
  | some (WriteFail.duringSerialize leftover) =>
    (fsSet (fsSet fs tmp leftover) tmp none, false)
  | some WriteFail.duringRename =>
    (fsSet (fsSet fs tmp (some doc)) tmp none, false)

/-! ## Data model

Structured embedding of the JSON documents of state_manager.py.  Fields
whose absence the relevant code paths either tolerate or trip over are
Option-valued (the stages mapping, the checkpoint list, and the per-stage
optional fields); timestamps are abstracted to natural-number clock values
and durations to integers.  Python dicts that the code mutates by key are
association lists with insertion-order preserving updates. -/

def lookupD {α : Type} (m : List (String × α)) (k : String) : Option α :=
  (m.find? (fun kv => kv.1 == k)).map (fun kv => kv.2)

/-- Python dict key assignment: replace in place when the key exists
(order preserved, keys are unique in a dict), append otherwise. -/
def setK {α : Type} (m : List (String × α)) (k : String) (v : α) : List (String × α) :=
  match m with
  | [] => [(k, v)]
  | a :: t => if a.1 == k then (k, v) :: t else a :: setK t k v

/-- Counter increment with default zero, as stats.get(key, 0) + 1. -/
def bump (m : List (String × Nat)) (k : String) : List (String × Nat) :=
  setK m k ((lookupD m k).getD 0 + 1)

structure StageRecord where
  status : String
  retry_count : Option Nat
  started_at : Option Nat
  completed_at : Option Nat
  duration_seconds : Option Int
  agent : Option String
  artifacts : Option (List String)
  error : Option String
deriving DecidableEq

/-- Fresh stage dict as initialize_project writes it. -/
def pendingStage : StageRecord :=
  ⟨"pending", some 0, none, none, none, none, none, none⟩

/-- Empty stage dict as start_stage creates it before its update call;
all fields, status included, are filled in by that update. -/
def emptyStageRecord : StageRecord :=
  ⟨"", none, none, none, none, none, none, none⟩

structure Checkpoint where
  id : String
  stage : String
  timestamp : Nat
  status : String
  artifacts : List String
  metadata : List (String × String)
deriving DecidableEq

structure Metrics where
  total_duration_seconds : Int
  stage_durations : List (String × Int)
  retry_count : Nat
  agent_invocations : Nat
  artifacts_generated : Nat
  dead_letters : Nat
deriving DecidableEq

structure RecoveryInfo where
  last_successful_checkpoint : Option String
  can_resume : Bool
  resume_from_stage : String
deriving DecidableEq

structure Snapshot where
  project_id : String
  version : String
  created_at : Nat
  updated_at : Nat
  issue_number : Nat
  branch : String
  current_stage : String
  status : String
  stages : Option (List (String × StageRecord))
  checkpoints : Option (List Checkpoint)
  labels_github : List String
  metrics : Metrics
  recovery_info : RecoveryInfo
deriving DecidableEq

structure DLStats where
  total_entries : Nat
  by_stage : List (String × Nat)
  by_agent : List (String × Nat)
  recovered : Nat
  unrecovered : Nat
deriving DecidableEq

structure DeadLetterEntry where
  id : String
  timestamp : Nat
  stage : String
  agent : String
  attempt_number : Nat
  errType : String
  errMessage : String
  recovery_attempted : Bool
  replay_count : Nat
  recovery_result : Option String
deriving DecidableEq

structure Vault where
  project_id : String
  version : String
  entries : List DeadLetterEntry
  statistics : DLStats
deriving DecidableEq

structure TransitionRecord where
  id : String
  timestamp : Nat
  project_id : String
  event_type : String
  stage : Option String
  agent : Option String
deriving DecidableEq

/-! ## Checkpoint creation (StateManager.create_checkpoint) -/

/-- Python list slicing l[start:] for an integer start value. -/
def pySliceFrom {α : Type} (start : Int) (l : List α) : List α :=
  if start < 0 then l.drop (l.length - start.natAbs)
  else l.drop start.toNat

/-- Suffix of the last m elements. -/
def keepLast {α : Type} (m : Nat) (l : List α) : List α := l.drop (l.length - m)

structure CpArgs where
  id : String
  stage : String
  status : String
  artifacts : List String
  metadata : List (String × String)
  now : Nat
deriving DecidableEq

def mkCheckpoint (a : CpArgs) : Checkpoint :=
  ⟨a.id, a.stage, a.now, a.status, a.artifacts, a.metadata⟩

/-- In-memory core of StateManager.create_checkpoint: append the new
checkpoint (auto-creating a missing list), rotate with the Python slice
from index minus max_checkpoints when the bound is exceeded, and point
recovery_info at the new id when its status is success. -/
def create_checkpoint_pure (maxCheckpoints : Int) (st : Snapshot) (a : CpArgs) : Snapshot :=
  let cps := st.checkpoints.getD [] ++ [mkCheckpoint a]
  let cps2 := if (cps.length : Int) > maxCheckpoints then pySliceFrom (-maxCheckpoints) cps else cps
  let ri :=
    if a.status = "success"
    then { st.recovery_info with last_successful_checkpoint := some a.id }
    else st.recovery_info
  { st with checkpoints := some cps2, recovery_info := ri, updated_at := a.now }

/-! ## Stage lifecycle (start_stage, complete_stage, fail_stage) -/

/-- In-memory core of StateManager.start_stage: a missing stages mapping or
stage record is created on first use, then the record is updated to
in_progress with start time and agent, the snapshot-level stage/status are
set, and agent_invocations is incremented. -/
def start_stage_pure (st : Snapshot) (stage agent : String) (now : Nat) : Snapshot :=
  let m := st.stages.getD []
  let r := (lookupD m stage).getD emptyStageRecord
  let r2 := { r with status := "in_progress", started_at := some now, agent := some agent }
  { st with
    stages := some (setK m stage r2),
    current_stage := stage,
    status := "in_progress",
    updated_at := now,
    metrics := { st.metrics with agent_invocations := st.metrics.agent_invocations + 1 } }

/-- In-memory core of StateManager.fail_stage up to its atomic rewrite: the
stage record is fetched by direct indexing (a KeyError when the stages
mapping or the record is absent), marked failed with the error message and
its unchanged retry_count (absent counts as zero), and the overall status
set to failed.  Returns the updated snapshot and the pre-failure
retry_count used for the dead-letter attempt number. -/
def fail_stage_pure (st : Snapshot) (stage : String) (errMessage : String) (now : Nat) :
    Except String (Snapshot × Nat) :=
  match st.stages with
  | none => Except.error ("KeyError: stages")
  | some m =>
    match lookupD m stage with
    | none => Except.error ("KeyError: " ++ stage)
    | some r =>
      let rc := r.retry_count.getD 0
      let r2 := { r with status := "failed", error := some errMessage, retry_count := some rc }
      Except.ok
        ({ st with stages := some (setK m stage r2), status := "failed", updated_at := now }, rc)

/-- In-memory core of StateManager.complete_stage up to its atomic rewrite:
the duration is computed from a safely fetched record (missing started_at
gives zero), but the status update indexes the stages mapping directly, a
KeyError when the mapping or the record is absent. -/
def complete_stage_pure (st : Snapshot) (stage : String) (artifacts : List String) (now : Nat) :
    Except String Snapshot :=
  let info := (lookupD (st.stages.getD []) stage).getD emptyStageRecord
  let duration : Int :=
    match info.started_at with
    | some t0 => (now : Int) - (t0 : Int)
    | none => 0
  match st.stages with
  | none => Except.error ("KeyError: stages")
  | some m =>
    match lookupD m stage with
    | none => Except.error ("KeyError: " ++ stage)
    | some r =>
      let r2 :=
        { r with
          status := "completed"
          completed_at := some now
          duration_seconds := some duration
          artifacts := some artifacts }
      Except.ok { st with
        stages := some (setK m stage r2),
        metrics := { st.metrics with
          stage_durations := setK st.metrics.stage_durations stage duration,
          artifacts_generated := st.metrics.artifacts_generated + artifacts.length },
        updated_at := now }

/-! ## Dead-letter vault (StateManager.add_dead_letter) -/

def freshVault (pid : String) : Vault := ⟨pid, "1.0.0", [], ⟨0, [], [], 0, 0⟩⟩

/-- In-memory core of StateManager.add_dead_letter: load or initialize the
vault, append one entry, increment total_entries, by_stage, by_agent and
unrecovered, then mirror the new total into the snapshot's
metrics.dead_letters when the snapshot could be loaded (the mirror is
skipped, not an error, when it could not). -/
def add_dead_letter_pure (vaultOpt : Option Vault) (stOpt : Option Snapshot)
    (pid stage agent errType errMessage : String) (attempt : Nat) (dlId : String) (now : Nat) :
    Vault × Option Snapshot × DeadLetterEntry :=
  let v := vaultOpt.getD (freshVault pid)
  let entry : DeadLetterEntry :=
    ⟨dlId, now, stage, agent, attempt, errType, errMessage, false, 0, none⟩
  let stats := v.statistics
  let stats2 : DLStats :=
    { total_entries := stats.total_entries + 1,
      by_stage := bump stats.by_stage stage,
      by_agent := bump stats.by_agent agent,
      recovered := stats.recovered,
      unrecovered := stats.unrecovered + 1 }
  let v2 := { v with entries := v.entries ++ [entry], statistics := stats2 }
  let st2 := stOpt.map (fun s =>
    { s with metrics := { s.metrics with dead_letters := stats2.total_entries } })
  (v2, st2, entry)

/-- StateManager.fail_stage with create_dead_letter=True: the primary
mutation commits first, then the dead letter is added with attempt number
retry_count + 1 and the snapshot is reloaded (mirrored metrics included). -/
def fail_stage_with_dead_letter (st : Snapshot) (vaultOpt : Option Vault)
    (pid stage agent errType errMessage : String) (now : Nat) (dlId : String) :
    Except String (Snapshot × Vault × DeadLetterEntry) :=
  match fail_stage_pure st stage errMessage now with
  | Except.error e => Except.error e
  | Except.ok (st1, rc) =>
    match add_dead_letter_pure vaultOpt (some st1) pid stage agent errType errMessage
        (rc + 1) dlId now with
    | (v2, st2, entry) => Except.ok (st2.getD st1, v2, entry)

/-! ## Store-level operations (initialize_project, get_state, readers)

The per-project file system: state.json, dead_letters.json and
transitions.jsonl, keyed by project id (every operation first resolves the
id through validation, so the path layer is already covered above).  A
value of none is an absent file. -/

structure Store where
  states : String → Option Snapshot
  vaults : String → Option Vault
  transitions : String → Option (List TransitionRecord)

def storeSetState (fs : Store) (pid : String) (s : Snapshot) : Store :=
  { fs with states := fun q => if q = pid then some s else fs.states q }

def storeSetVault (fs : Store) (pid : String) (v : Vault) : Store :=
  { fs with vaults := fun q => if q = pid then some v else fs.vaults q }

def storeAppendTransition (fs : Store) (pid : String) (e : TransitionRecord) : Store :=
  { fs with transitions :=
      fun q => if q = pid then some ((fs.transitions pid).getD [] ++ [e]) else fs.transitions q }

def pipelineStages : List String :=
  ["ideation", "specification", "simulation",
   "architecture", "implementation", "validation", "staging"]

def zeroMetrics : Metrics := ⟨0, [], 0, 0, 0, 0⟩

/-- The state document initialize_project writes. -/
def initial_state (pid : String) (issue : Nat) (branch : Option String)
    (labels : Option (List String)) (now : Nat) : Snapshot :=
  { project_id := pid, version := "1.0.0", created_at := now, updated_at := now,
    issue_number := issue,
    branch := branch.getD ("somas/" ++ pid),
    current_stage := "ideation",
    status := "initializing",
    stages := some (pipelineStages.map (fun s => (s, pendingStage))),
    checkpoints := some [],
    labels_github := labels.getD ["somas-project", "somas:dev"],
    metrics := zeroMetrics,
    recovery_info := ⟨none, true, "ideation"⟩ }

/-- StateManager.initialize_project: validate the id, write the fresh state
and the fresh empty vault, and append a project_initialized transition.
The title is only recorded inside the transition metadata, which this model
does not carry. -/
def initialize_project_fs (fs : Store) (pid : String) (issue : Nat) (_title : String)
    (branch : Option String) (labels : Option (List String)) (now : Nat) (tid : String) :
    Except String (Store × Snapshot) :=
  if reMatchProjectId pid then
    let st := initial_state pid issue branch labels now
    let fs1 := storeSetState fs pid st
    let fs2 := storeSetVault fs1 pid (freshVault pid)
    let fs3 := storeAppendTransition fs2 pid ⟨tid, now, pid, "project_initialized", none, none⟩
    Except.ok (fs3, st)
  else Except.error ("Invalid project ID format: " ++ pid)

/-- StateManager.get_state: FileNotFoundError when the state file is
absent. -/
def get_state_fs (fs : Store) (pid : String) : Except String Snapshot :=
  if reMatchProjectId pid then
    match fs.states pid with
    | none => Except.error ("State file not found: " ++ pid)
    | some s => Except.ok s
  else Except.error ("Invalid project ID format: " ++ pid)

/-- Python truthiness filter on an optional string parameter: None and the
empty string disable the filter. -/
def passStrFilter (fil : Option String) (v : Option String) : Bool :=
  match fil with
  | none => true
  | some f => if f = "" then true else v == some f

/-- StateManager.get_transitions: a missing transitions file yields the
empty list; otherwise filter by event type and stage, then keep the most
recent limit entries when a positive limit is given. -/
def get_transitions_fs (fs : Store) (pid : String) (eventType stageF : Option String)
    (limit : Option Int) : Except String (List TransitionRecord) :=
  if reMatchProjectId pid then
    match fs.transitions pid with
    | none => Except.ok []
    | some l =>
      let l2 := l.filter
        (fun e => passStrFilter eventType (some e.event_type) && passStrFilter stageF e.stage)
      Except.ok
        (match limit with
         | none => l2
         | some k => if k > 0 then keepLast k.toNat l2 else l2)
  else Except.error ("Invalid project ID format: " ++ pid)

/-- StateManager.get_dead_letters: a missing vault file yields the empty
list; otherwise filter by stage, agent and the unrecovered predicate. -/
def get_dead_letters_fs (fs : Store) (pid : String) (stageF agentF : Option String)
    (unrecoveredOnly : Bool) : Except String (List DeadLetterEntry) :=
  if reMatchProjectId pid then
    match fs.vaults pid with
    | none => Except.ok []
    | some v =>
      let e1 :=
        match stageF with
        | none => v.entries
        | some s => if s = "" then v.entries else v.entries.filter (fun e => e.stage == s)
      let e2 :=
        match agentF with
        | none => e1
        | some a => if a = "" then e1 else e1.filter (fun e => e.agent == a)
      let e3 :=
        if unrecoveredOnly
        then e2.filter (fun e => !e.recovery_attempted || !(e.recovery_result == some "success"))
        else e2
      Except.ok e3
  else Except.error ("Invalid project ID format: " ++ pid)

def cpArgsN (i : Nat) : CpArgs := ⟨"chk-" ++ toString i, "s", "success", [], [], i⟩

/-! ## Lemmas about the id pattern and path resolution -/

lemma isPrefixOfIff {a : Type} [BEq a] [LawfulBEq a] {l1 l2 : List a} :
    l1.isPrefixOf l2 = true ↔ l1 <+: l2 :=
  List.isPrefixOf_iff_prefix

lemma takeWhile_dropWhile_split (p : Char → Bool) :
    ∀ (ds rest : List Char), (∀ c ∈ ds, p c = true) → (∀ c ∈ rest.take 1, p c = false) →
      (ds ++ rest).takeWhile p = ds ∧ (ds ++ rest).dropWhile p = rest := by
  intro ds
  induction ds with
  | nil =>
    intro rest h1 h2
    cases rest with
    | nil => simp
    | cons c t =>
      have hc : p c = false := h2 c (by simp)
      simp [List.takeWhile_cons, List.dropWhile_cons, hc]
  | cons a tl ih =>
    intro rest h1 h2
    have ha : p a = true := h1 a (by simp)
    have hrec := ih rest (fun c hc => h1 c (by simp [hc])) h2
    simp [List.takeWhile_cons, List.dropWhile_cons, ha, hrec.1, hrec.2]

lemma reMatch_iff (s : String) :
    reMatchProjectId s = true ↔
      ∃ ds : List Char, ds ≠ [] ∧ (∀ c ∈ ds, isPyDigit c = true) ∧
        (s.toList = pidPat ++ ds ∨ s.toList = pidPat ++ ds ++ ['\x0a']) := by
  constructor
  · intro h
    unfold reMatchProjectId at h
    rw [Bool.and_eq_true, Bool.and_eq_true, Bool.or_eq_true] at h
    obtain ⟨hp, hne, hrest⟩ := h
    obtain ⟨t, ht⟩ := isPrefixOfIff.mp hp
    have hdrop : s.toList.drop 8 = t := by
      rw [← ht]; exact List.drop_left pidPat t
    rw [hdrop] at hne hrest
    refine ⟨t.takeWhile isPyDigit, ?_, ?_, ?_⟩
    · rw [Bool.not_eq_true'] at hne
      exact List.isEmpty_eq_false.mp hne
    · exact fun c hc => List.mem_takeWhile_imp hc
    · have hsplit : t.takeWhile isPyDigit ++ t.dropWhile isPyDigit = t :=
        List.takeWhile_append_dropWhile isPyDigit t
      rcases hrest with hva | hvb
      · left
        have htt : t = t.takeWhile isPyDigit := by
          conv_lhs => rw [← hsplit]
          rw [List.isEmpty_iff.mp hva, List.append_nil]
        rw [← ht]
        exact congrArg (fun x => pidPat ++ x) htt
      · right
        have hnl : t.dropWhile isPyDigit = ['\x0a'] := of_decide_eq_true hvb
        have htt : t = t.takeWhile isPyDigit ++ ['\x0a'] := by
          conv_lhs => rw [← hsplit]
          rw [hnl]
        rw [← ht, List.append_assoc]
        exact congrArg (fun x => pidPat ++ x) htt
  · rintro ⟨ds, hne, hdig, hcase | hcase⟩
    · have hsp := takeWhile_dropWhile_split isPyDigit ds [] hdig (by intro c hc; simp at hc)
      unfold reMatchProjectId
      rw [hcase]
      have hd8 : (pidPat ++ ds).drop 8 = ds := List.drop_left pidPat ds
      rw [Bool.and_eq_true, Bool.and_eq_true, Bool.or_eq_true]
      have hsp1 : ds.takeWhile isPyDigit = ds := by simpa using hsp.1
      have hsp2 : ds.dropWhile isPyDigit = [] := by simpa using hsp.2
      refine ⟨isPrefixOfIff.mpr (List.prefix_append pidPat ds), ?_, ?_⟩
      · rw [hd8, hsp1, Bool.not_eq_true', List.isEmpty_eq_false]
        exact hne
      · left
        rw [hd8, hsp2]
        rfl
    · have hsp := takeWhile_dropWhile_split isPyDigit ds ['\x0a'] hdig
        (by intro c hc; simp at hc; rw [hc]; decide)
      unfold reMatchProjectId
      rw [hcase]
      have hd8 : (pidPat ++ (ds ++ ['\x0a'])).drop 8 = ds ++ ['\x0a'] :=
        List.drop_left pidPat (ds ++ ['\x0a'])
      rw [List.append_assoc, Bool.and_eq_true, Bool.and_eq_true, Bool.or_eq_true]
      refine ⟨isPrefixOfIff.mpr (List.prefix_append pidPat (ds ++ ['\x0a'])), ?_, ?_⟩
      · rw [hd8, hsp.1, Bool.not_eq_true', List.isEmpty_eq_false]
        exact hne
      · right
        rw [hd8, hsp.2]
        exact decide_eq_true rfl

lemma valid_no_slash {id : String} (h : reMatchProjectId id = true) : '/' ∉ id.toList := by
  obtain ⟨ds, _, hdig, hcase⟩ := (reMatch_iff id).mp h
  intro hmem
  rcases hcase with hc | hc
  · rw [hc] at hmem
    rcases List.mem_append.mp hmem with hm | hm
    · exact absurd hm (by decide)
    · exact absurd (hdig _ hm) (by decide)
  · rw [hc] at hmem
    rcases List.mem_append.mp hmem with hm | hm
    · rcases List.mem_append.mp hm with hm2 | hm2
      · exact absurd hm2 (by decide)
      · exact absurd (hdig _ hm2) (by decide)
    · exact absurd hm (by decide)

lemma valid_ne_special {id : String} (h : reMatchProjectId id = true) :
    id ≠ ".." ∧ id ≠ "." ∧ id ≠ "" := by
  refine ⟨?_, ?_, ?_⟩ <;> intro heq <;> rw [heq] at h <;> exact absurd h (by decide)

lemma splitComps_of_no_slash : ∀ {cs : List Char}, '/' ∉ cs → splitComps cs = [cs] := by
  intro cs
  induction cs with
  | nil => intro _; rfl
  | cons c t ih =>
    intro h
    have hc : ¬ c = '/' := fun hcc => h (by simp [hcc])
    have ht : '/' ∉ t := fun hm => h (by simp [hm])
    unfold splitComps
    rw [if_neg hc, ih ht]

lemma splitId_of_no_slash {id : String} (h : '/' ∉ id.toList) : splitId id = [id] := by
  unfold splitId
  rw [splitComps_of_no_slash h]
  rfl

lemma normalizeP_append_one {root : List String} {id : String}
    (hroot : normalizeP root = root) (h2 : id ≠ "..") (h3 : id ≠ ".") (h4 : id ≠ "") :
    normalizeP (root ++ [id]) = root ++ [id] := by
  unfold normalizeP
  rw [List.foldl_append]
  show normStep (normalizeP root) id = root ++ [id]
  rw [hroot]
  unfold normStep
  rw [if_neg h2, if_neg (by exact fun hor => hor.elim h3 h4)]

lemma safe_path_ok {root : List String} (h_root : normalizeP root = root)
    {id : String} (hid : reMatchProjectId id = true) :
    get_safe_project_path root id = Except.ok (root ++ [id]) := by
  have hns := valid_no_slash hid
  obtain ⟨hdd, hd, he⟩ := valid_ne_special hid
  have hsplit := splitId_of_no_slash hns
  have hnorm := normalizeP_append_one h_root hdd hd he
  have hpre : root.isPrefixOf (root ++ [id]) = true :=
    isPrefixOfIff.mpr (List.prefix_append root [id])
  simp [get_safe_project_path, validate_project_id, hid, hsplit, hnorm, hpre]

/-! ## Claim theorems: identifier validation and path resolution -/

/-- C2: for every project id matching the pattern, the resolved project path
is a strict descendant of the canonicalized root; every id whose resolved
path escapes the root fails with a ValueError; and the dedicated
path-traversal error branch is unreachable for validated ids (no symlink
escape being modelled, per the claim's hypothesis). -/
theorem C2_safe_path_resolution (root : List String) (h_root : normalizeP root = root) :
    (∀ id, reMatchProjectId id = true →
      get_safe_project_path root id = Except.ok (root ++ [id]) ∧
        root <+: root ++ [id] ∧ root ++ [id] ≠ root) ∧
    (∀ id, root.isPrefixOf (normalizeP (root ++ splitId id)) = false →
      ∃ msg, get_safe_project_path root id = Except.error msg) ∧
    (∀ id, reMatchProjectId id = true →
      get_safe_project_path root id ≠ Except.error ("Path traversal attempt detected")) := by
  refine ⟨?_, ?_, ?_⟩
  · intro id hid
    refine ⟨safe_path_ok h_root hid, List.prefix_append root [id], ?_⟩
    intro hcontra
    have := congrArg List.length hcontra
    simp at this
  · intro id hesc
    by_cases hid : reMatchProjectId id = true
    · exfalso
      have hns := valid_no_slash hid
      obtain ⟨hdd, hd, he⟩ := valid_ne_special hid
      rw [splitId_of_no_slash hns, normalizeP_append_one h_root hdd hd he] at hesc
      rw [isPrefixOfIff.mpr (List.prefix_append root [id])] at hesc
      exact Bool.true_eq_false.mp hesc
    · refine ⟨"Invalid project ID format: " ++ id, ?_⟩
      simp [get_safe_project_path, validate_project_id, Bool.eq_false_iff.mpr hid]
  · intro id hid
    rw [safe_path_ok h_root hid]
    intro hcontra
    exact Except.noConfusion hcontra

/-- C2 witness: at the concrete root home-projects, the valid id project-7
resolves inside the root, and the escaping id dot-dot-x fails. -/
theorem C2_witness :
    get_safe_project_path ["home", "projects"] "project-7" =
      Except.ok ["home", "projects", "project-7"] ∧
    (∃ msg, get_safe_project_path ["home", "projects"] "../x" = Except.error msg) ∧
    get_safe_project_path ["home", "projects"] "project-7" ≠
      Except.error ("Path traversal attempt detected") := by
  have h := C2_safe_path_resolution ["home", "projects"] (by decide)
  exact ⟨(h.1 "project-7" (by decide)).1, h.2.1 "../x" (by decide),
    h.2.2 "project-7" (by decide)⟩

/-- C3 counterexample: the claim says validation succeeds only when the id is
exactly project-digits with no trailing newline, but the code's regex (with
Python dollar-anchor semantics) accepts a single trailing newline. -/
theorem C3_counterexample :
    validate_project_id "project-1\x0a" = Except.ok true ∧
    specExactProjectId "project-1\x0a" = false := by
  constructor
  · rfl
  · rfl

/-- C3 (amended): validation succeeds if and only if the id is "project-"
followed by one or more Unicode decimal digits (category Nd, the set the
re digit class matches over str), either alone or followed by exactly one
trailing newline; every other string fails with a ValueError (purely,
before any I/O). -/
theorem C3_validate_iff (s : String) :
    validate_project_id s = Except.ok true ↔
      ∃ ds : List Char, ds ≠ [] ∧ (∀ c ∈ ds, isPyDigit c = true) ∧
        (s.toList = pidPat ++ ds ∨ s.toList = pidPat ++ ds ++ ['\x0a']) := by
  rw [← reMatch_iff]
  unfold validate_project_id
  by_cases h : reMatchProjectId s = true
  · simp [h]
  · simp [Bool.eq_false_iff.mpr h]

/-- C3 witness: the amended characterization applied at the ASCII id
project-42, at an id written with an Arabic-Indic digit (which the code
accepts, since the re digit class covers all of category Nd), and at a
malformed id. -/
theorem C3_witness :
    validate_project_id "project-42" = Except.ok true ∧
    validate_project_id "project-٣" = Except.ok true ∧
    validate_project_id "project_1" =
      Except.error ("Invalid project ID format: project_1") := by
  refine ⟨?_, ?_, rfl⟩
  · exact (C3_validate_iff "project-42").mpr
      ⟨['4', '2'], by decide, by decide, Or.inl (by decide)⟩
  · exact (C3_validate_iff "project-٣").mpr
      ⟨['٣'], by decide, by decide, Or.inl (by decide)⟩

/-- C1: whenever any step of the whole-file write fails, the temporary file
is removed and the destination keeps its prior content; no other file is
touched; and the destination changes only when the whole write succeeds, in
which case it holds exactly the serialized document. -/
theorem C1_atomic_write {δ : Type} (fs : String → Option δ) (path : String) (doc : δ)
    (outcome : Option (WriteFail δ)) (h : pyWithSuffixTmp path ≠ path) :
    ((atomic_write_json fs path doc outcome).2 = false →
      (atomic_write_json fs path doc outcome).1 path = fs path ∧
      (atomic_write_json fs path doc outcome).1 (pyWithSuffixTmp path) = none) ∧
    ((atomic_write_json fs path doc outcome).2 = true →
      (atomic_write_json fs path doc outcome).1 path = some doc ∧
      (atomic_write_json fs path doc outcome).1 (pyWithSuffixTmp path) = none) ∧
    (∀ q, q ≠ path → q ≠ pyWithSuffixTmp path →
      (atomic_write_json fs path doc outcome).1 q = fs q) ∧
    ((atomic_write_json fs path doc outcome).1 path ≠ fs path →
      outcome = none ∧ (atomic_write_json fs path doc outcome).1 path = some doc) := by
  have hps : path ≠ pyWithSuffixTmp path := fun e => h e.symm
  rcases outcome with _ | f
  · refine ⟨fun hf => ?_, fun _ => ⟨?_, ?_⟩, fun q hq1 hq2 => ?_, fun _ => ⟨rfl, ?_⟩⟩
    · exact absurd hf (by simp [atomic_write_json])
    · simp [atomic_write_json, fsSet]
    · simp [atomic_write_json, fsSet, h]
    · simp [atomic_write_json, fsSet, hq1, hq2]
    · simp [atomic_write_json, fsSet]
  · cases f with
    | duringSerialize leftover =>
      refine ⟨fun _ => ⟨?_, ?_⟩, fun ht => ?_, fun q hq1 hq2 => ?_, fun hne => ?_⟩
      · simp [atomic_write_json, fsSet, hps]
      · simp [atomic_write_json, fsSet]
      · exact absurd ht (by simp [atomic_write_json])
      · simp [atomic_write_json, fsSet, hq2]
      · exact absurd (by simp [atomic_write_json, fsSet, hps]) hne
    | duringRename =>
      refine ⟨fun _ => ⟨?_, ?_⟩, fun ht => ?_, fun q hq1 hq2 => ?_, fun hne => ?_⟩
      · simp [atomic_write_json, fsSet, hps]
      · simp [atomic_write_json, fsSet]
      · exact absurd ht (by simp [atomic_write_json])
      · simp [atomic_write_json, fsSet, hq2]
      · exact absurd (by simp [atomic_write_json, fsSet, hps]) hne

/-- C1 witness: a failed rename on a concrete directory leaves state.json
holding its old contents and removes state.tmp. -/
theorem C1_witness :
    (atomic_write_json (fun q => if q = "state.json" then some "old" else none)
        "state.json" "new" (some WriteFail.duringRename)).1 "state.json" = some "old" ∧
    (atomic_write_json (fun q => if q = "state.json" then some "old" else none)
        "state.json" "new" (some WriteFail.duringRename)).1 "state.tmp" = none := by
  have h := C1_atomic_write (fun q => if q = "state.json" then some "old" else none)
    "state.json" "new" (some WriteFail.duringRename) (by decide)
  have h2 := h.1 rfl
  exact ⟨h2.1.trans rfl, h2.2⟩

/-! ## Rotation lemmas and the checkpoint claims -/

lemma keepLast_length_le {α : Type} (m : Nat) (l : List α) : (keepLast m l).length ≤ m := by
  unfold keepLast
  rw [List.length_drop]
  omega

lemma keepLast_of_le {α : Type} {m : Nat} {l : List α} (h : l.length ≤ m) :
    keepLast m l = l := by
  unfold keepLast
  rw [Nat.sub_eq_zero_of_le h]
  exact List.drop_zero l

lemma pySliceFrom_neg_int {α : Type} (m : Int) (hm : 1 ≤ m) (l : List α) :
    pySliceFrom (-m) l = keepLast m.toNat l := by
  unfold pySliceFrom keepLast
  rw [if_pos (by omega)]
  congr 1
  omega

lemma keepLast_append_keepLast {α : Type} (m : Nat) (x y : List α) :
    keepLast m (keepLast m x ++ y) = keepLast m (x ++ y) := by
  rcases le_or_lt x.length m with h | h
  · rw [keepLast_of_le h]
  · unfold keepLast
    have hlen : (x.drop (x.length - m)).length = m := by
      rw [List.length_drop]; omega
    rw [List.length_append, List.length_append, hlen,
      List.drop_append_eq_append_drop, List.drop_append_eq_append_drop,
      List.drop_drop, hlen]
    have e1 : x.length - m + (m + y.length - m) = x.length + y.length - m := by omega
    have e2 : m + y.length - m - m = x.length + y.length - m - x.length := by omega
    rw [e1, e2]

lemma mem_last_keepLast {α : Type} (m : Nat) (hm : 1 ≤ m) (l : List α) (x : α) :
    x ∈ keepLast m (l ++ [x]) := by
  unfold keepLast
  simp only [List.length_append, List.length_singleton]
  have hk : l.length + 1 - m ≤ l.length := by omega
  rw [List.drop_append_of_le_length hk]
  simp

lemma rotate_eq_keepLast {α : Type} (m : Nat) (hm : 1 ≤ m) (l : List α) :
    (if (l.length : Int) > ((m : Nat) : Int) then pySliceFrom (-((m : Nat) : Int)) l else l) =
      keepLast m l := by
  by_cases h : (l.length : Int) > ((m : Nat) : Int)
  · rw [if_pos h, pySliceFrom_neg_int ((m : Nat) : Int) (by omega) l]
    simp
  · rw [if_neg h, keepLast_of_le (by omega)]

lemma foldl_checkpoints (m : Nat) (hm : 1 ≤ m) :
    ∀ (l : List CpArgs) (st : Snapshot) (c : List Checkpoint),
      st.checkpoints = some c → c = keepLast m c →
      (l.foldl (create_checkpoint_pure ((m : Nat) : Int)) st).checkpoints =
        some (keepLast m (c ++ l.map mkCheckpoint)) := by
  intro l
  induction l with
  | nil =>
    intro st c hc hk
    simp only [List.foldl_nil, List.map_nil, List.append_nil]
    rw [hc]
    exact congrArg some hk
  | cons a t ih =>
    intro st c hc hk
    simp only [List.foldl_cons]
    have hst1 : (create_checkpoint_pure ((m : Nat) : Int) st a).checkpoints =
        some (keepLast m (c ++ [mkCheckpoint a])) := by
      unfold create_checkpoint_pure
      simp only [hc, Option.getD_some]
      rw [rotate_eq_keepLast m hm]
    have hres := ih (create_checkpoint_pure ((m : Nat) : Int) st a)
      (keepLast m (c ++ [mkCheckpoint a])) hst1
      (keepLast_of_le (keepLast_length_le m (c ++ [mkCheckpoint a]))).symm
    rw [hres]
    congr 1
    rw [keepLast_append_keepLast]
    congr 1
    simp

/-- C4: folding n checkpoint creations with max_checkpoints = 20 over a
snapshot that starts with an empty checkpoint list retains exactly the last
min(n, 20) checkpoints, in creation order (the suffix of the created
sequence). -/
theorem C4_checkpoint_rotation (l : List CpArgs) (st0 : Snapshot)
    (h0 : st0.checkpoints = some []) :
    (l.foldl (create_checkpoint_pure 20) st0).checkpoints =
      some (keepLast 20 (l.map mkCheckpoint)) ∧
    ((l.foldl (create_checkpoint_pure 20) st0).checkpoints.getD []).length =
      min l.length 20 := by
  have h := foldl_checkpoints 20 (by omega) l st0 [] h0 rfl
  simp only [List.nil_append, Nat.cast_ofNat] at h
  refine ⟨h, ?_⟩
  rw [h]
  unfold keepLast
  simp only [Option.getD_some, List.length_drop, List.length_map]
  omega


/-- C4 witness: 25 creations with bound 20 retain checkpoints 6 through 25
of the created sequence (indices 5 to 24), not the first 20. -/
theorem C4_witness :
    ((((List.range 25).map cpArgsN)).foldl (create_checkpoint_pure 20)
        (initial_state "project-1" 1 none none 0)).checkpoints =
      some ((((List.range 25).map cpArgsN).map mkCheckpoint).drop 5) := by
  have h := (C4_checkpoint_rotation ((List.range 25).map cpArgsN)
      (initial_state "project-1" 1 none none 0) rfl).1
  rw [h]
  rfl

/-- C5: a checkpoint creation with status success points
recovery_info.last_successful_checkpoint at the new checkpoint's id, and
that checkpoint is present in the retained list written by the same call
(the eviction of that call can never remove the element it just appended,
for any non-negative retention bound). -/
theorem C5_pointer_in_retained (maxC : Int) (hmx : 0 ≤ maxC) (st : Snapshot) (a : CpArgs)
    (hsucc : a.status = "success") :
    (create_checkpoint_pure maxC st a).recovery_info.last_successful_checkpoint =
      some a.id ∧
    mkCheckpoint a ∈ ((create_checkpoint_pure maxC st a).checkpoints.getD []) := by
  unfold create_checkpoint_pure
  refine ⟨by simp [hsucc], ?_⟩
  simp only [hsucc, if_pos, Option.getD_some]
  by_cases hlen : (((st.checkpoints.getD [] ++ [mkCheckpoint a]).length : Nat) : Int) > maxC
  · rw [if_pos hlen]
    rcases eq_or_lt_of_le hmx with h0 | hpos
    · have : pySliceFrom (-maxC) (st.checkpoints.getD [] ++ [mkCheckpoint a]) =
          st.checkpoints.getD [] ++ [mkCheckpoint a] := by
        unfold pySliceFrom
        rw [← h0]
        simp
      rw [this]
      simp
    · rw [pySliceFrom_neg_int maxC (by omega)]
      exact mem_last_keepLast maxC.toNat (by omega) _ _
  · rw [if_neg hlen]
    simp

/-- C5 witness: a concrete successful checkpoint lands in the retained list
and is pointed at by the recovery pointer. -/
theorem C5_witness :
    (create_checkpoint_pure 20 (initial_state "project-9" 9 none none 0)
        (cpArgsN 1)).recovery_info.last_successful_checkpoint = some (cpArgsN 1).id ∧
    mkCheckpoint (cpArgsN 1) ∈
      ((create_checkpoint_pure 20 (initial_state "project-9" 9 none none 0)
        (cpArgsN 1)).checkpoints.getD []) := by
  exact C5_pointer_in_retained 20 (by omega) (initial_state "project-9" 9 none none 0)
    (cpArgsN 1) rfl

/-! ## Dead-letter, stage-failure and store-level claims -/

lemma lookupD_setK_self {α : Type} (m : List (String × α)) (k : String) (v : α) :
    lookupD (setK m k v) k = some v := by
  induction m with
  | nil => simp [setK, lookupD, List.find?]
  | cons a t ih =>
    unfold setK
    by_cases h : a.1 == k
    · simp [lookupD, List.find?, h]
    · simp only [if_neg h]
      unfold lookupD at ih ⊢
      rw [List.find?]
      simp only [h]
      exact ih

/-- C6: adding a dead letter to a vault with consistent statistics appends
exactly one entry, increments total_entries, by_stage of the stage, by_agent
of the agent and unrecovered each by one, and mirrors the new total into the
snapshot's metrics.dead_letters, which therefore equals
statistics.total_entries when the call returns. -/
theorem C6_add_dead_letter_mirrors (v : Vault) (s : Snapshot)
    (pid stage agent errType errMessage : String) (attempt : Nat) (dlId : String) (now : Nat)
    (_hcons : v.statistics.total_entries = v.entries.length) :
    let r := add_dead_letter_pure (some v) (some s) pid stage agent errType errMessage
      attempt dlId now
    r.1.entries = v.entries ++ [r.2.2] ∧
    r.1.statistics.total_entries = v.statistics.total_entries + 1 ∧
    lookupD r.1.statistics.by_stage stage =
      some ((lookupD v.statistics.by_stage stage).getD 0 + 1) ∧
    lookupD r.1.statistics.by_agent agent =
      some ((lookupD v.statistics.by_agent agent).getD 0 + 1) ∧
    r.1.statistics.unrecovered = v.statistics.unrecovered + 1 ∧
    r.2.1 = some { s with metrics :=
      { s.metrics with dead_letters := r.1.statistics.total_entries } } := by
  intro r
  refine ⟨rfl, rfl, ?_, ?_, rfl, rfl⟩
  · exact lookupD_setK_self _ _ _
  · exact lookupD_setK_self _ _ _

/-- C6 witness: adding one dead letter to the fresh consistent vault of an
initialized project. -/
theorem C6_witness :
    let r := add_dead_letter_pure (some (freshVault "project-1"))
      (some (initial_state "project-1" 1 none none 0)) "project-1" "ideation" "agentA"
      "Timeout" "boom" 1 "dl-1" 5
    r.1.entries = (freshVault "project-1").entries ++ [r.2.2] ∧
    r.1.statistics.total_entries = (freshVault "project-1").statistics.total_entries + 1 ∧
    lookupD r.1.statistics.by_stage "ideation" =
      some ((lookupD (freshVault "project-1").statistics.by_stage "ideation").getD 0 + 1) ∧
    lookupD r.1.statistics.by_agent "agentA" =
      some ((lookupD (freshVault "project-1").statistics.by_agent "agentA").getD 0 + 1) ∧
    r.1.statistics.unrecovered = (freshVault "project-1").statistics.unrecovered + 1 ∧
    r.2.1 = some { initial_state "project-1" 1 none none 0 with metrics :=
      { (initial_state "project-1" 1 none none 0).metrics with
        dead_letters := r.1.statistics.total_entries } } :=
  C6_add_dead_letter_mirrors (freshVault "project-1") (initial_state "project-1" 1 none none 0)
    "project-1" "ideation" "agentA" "Timeout" "boom" 1 "dl-1" 5 rfl

/-- C7: fail_stage writes the stage record with its pre-failure retry_count
unchanged (an absent field counting as zero), sets the overall status to
failed, and the dead letter it creates carries attempt_number equal to that
pre-failure retry_count plus one. -/
theorem C7_fail_stage_retry_count (st : Snapshot) (vaultOpt : Option Vault)
    (pid stage agent errType errMessage dlId : String) (now : Nat)
    (m : List (String × StageRecord)) (r : StageRecord)
    (hm : st.stages = some m) (hr : lookupD m stage = some r) :
    ∃ st2 v2 e,
      fail_stage_with_dead_letter st vaultOpt pid stage agent errType errMessage now dlId =
        Except.ok (st2, v2, e) ∧
      lookupD (st2.stages.getD []) stage = some
        { r with
          status := "failed"
          error := some errMessage
          retry_count := some (r.retry_count.getD 0) } ∧
      st2.status = "failed" ∧
      e.attempt_number = r.retry_count.getD 0 + 1 := by
  simp only [fail_stage_with_dead_letter, fail_stage_pure, hm, hr]
  refine ⟨_, _, _, rfl, ?_, rfl, rfl⟩
  exact lookupD_setK_self _ _ _

/-- C7 witness: failing the ideation stage of a freshly initialized project
(retry_count 0) yields a dead letter with attempt_number 1 and an unchanged
retry_count in the written record. -/
theorem C7_witness :
    ∃ st2 v2 e,
      fail_stage_with_dead_letter (initial_state "project-1" 1 none none 0) none
        "project-1" "ideation" "agentA" "Timeout" "boom" 7 "dl-1" =
        Except.ok (st2, v2, e) ∧
      lookupD (st2.stages.getD []) "ideation" = some
        { pendingStage with
          status := "failed"
          error := some "boom"
          retry_count := some (pendingStage.retry_count.getD 0) } ∧
      st2.status = "failed" ∧
      e.attempt_number = pendingStage.retry_count.getD 0 + 1 :=
  C7_fail_stage_retry_count (initial_state "project-1" 1 none none 0) none
    "project-1" "ideation" "agentA" "Timeout" "boom" "dl-1" 7
    (pipelineStages.map (fun s => (s, pendingStage))) pendingStage rfl rfl

/-- C8 counterexample: on a loaded snapshot whose stages mapping does not
contain the stage, fail_stage and complete_stage raise a KeyError instead of
auto-initializing the record, so a missing stage is fatal for them. -/
theorem C8_counterexample :
    fail_stage_pure { initial_state "project-8" 8 none none 0 with stages := some [] }
      "ideation" "boom" 1 = Except.error ("KeyError: ideation") ∧
    complete_stage_pure { initial_state "project-8" 8 none none 0 with stages := some [] }
      "ideation" [] 1 = Except.error ("KeyError: ideation") := by
  exact ⟨rfl, rfl⟩

/-- C8 (amended): start_stage auto-initializes a missing stages mapping or
stage record on first use and never fails, but fail_stage and complete_stage
index the stages mapping directly and raise a KeyError when the mapping or
the stage record is absent. -/
theorem C8_schema_gap (st : Snapshot) (stage agent errMessage : String)
    (artifacts : List String) (now : Nat) :
    (lookupD ((start_stage_pure st stage agent now).stages.getD []) stage =
      some { (lookupD (st.stages.getD []) stage).getD emptyStageRecord with
        status := "in_progress", started_at := some now, agent := some agent }) ∧
    (st.stages = none →
      fail_stage_pure st stage errMessage now = Except.error ("KeyError: stages") ∧
      complete_stage_pure st stage artifacts now = Except.error ("KeyError: stages")) ∧
    (∀ m, st.stages = some m → lookupD m stage = none →
      fail_stage_pure st stage errMessage now = Except.error ("KeyError: " ++ stage) ∧
      complete_stage_pure st stage artifacts now = Except.error ("KeyError: " ++ stage)) := by
  refine ⟨?_, fun h => ⟨?_, ?_⟩, fun m hm hnone => ⟨?_, ?_⟩⟩
  · exact lookupD_setK_self _ _ _
  · simp [fail_stage_pure, h]
  · simp [complete_stage_pure, h]
  · simp [fail_stage_pure, hm, hnone]
  · simp [complete_stage_pure, hm, hnone]

/-- C8 witness: starting an unknown stage on a snapshot with an empty stages
mapping creates its record, while failing it beforehand raises a KeyError. -/
theorem C8_witness :
    (lookupD ((start_stage_pure
        { initial_state "project-8" 8 none none 0 with stages := some [] }
        "review" "agentR" 3).stages.getD []) "review" =
      some { emptyStageRecord with
        status := "in_progress", started_at := some 3, agent := some "agentR" }) ∧
    fail_stage_pure { initial_state "project-8" 8 none none 0 with stages := some [] }
      "review" "oops" 3 = Except.error ("KeyError: review") := by
  have h := C8_schema_gap { initial_state "project-8" 8 none none 0 with stages := some [] }
    "review" "agentR" "oops" [] 3
  exact ⟨h.1, (h.2.2 [] rfl rfl).1⟩

/-- C9: initializing project-123 and reading it back yields a snapshot with
status initializing, current stage ideation, an empty checkpoint list and
fully zeroed metrics (dead_letters included). -/
theorem C9_initialize_then_get (fs : Store) (now : Nat) (tid : String) :
    ∃ fs2 st0,
      initialize_project_fs fs "project-123" 123 "Demo" none none now tid =
        Except.ok (fs2, st0) ∧
      get_state_fs fs2 "project-123" = Except.ok st0 ∧
      st0.status = "initializing" ∧
      st0.current_stage = "ideation" ∧
      st0.checkpoints = some [] ∧
      st0.metrics.dead_letters = 0 ∧
      st0.metrics = zeroMetrics := by
  refine ⟨_, _, rfl, ?_, rfl, rfl, rfl, rfl, rfl⟩
  rfl

/-- C10: reading transitions or dead letters of a project whose log or vault
file is absent returns the empty sequence, while reading the snapshot of a
project whose state file is absent raises FileNotFoundError. -/
theorem C10_missing_files (fs : Store) (pid : String) (eventType stageF agentF : Option String)
    (limit : Option Int) (unrecoveredOnly : Bool) (hid : reMatchProjectId pid = true) :
    (fs.transitions pid = none →
      get_transitions_fs fs pid eventType stageF limit = Except.ok []) ∧
    (fs.vaults pid = none →
      get_dead_letters_fs fs pid stageF agentF unrecoveredOnly = Except.ok []) ∧
    (fs.states pid = none →
      get_state_fs fs pid = Except.error ("State file not found: " ++ pid)) := by
  refine ⟨fun h => ?_, fun h => ?_, fun h => ?_⟩
  · simp [get_transitions_fs, hid, h]
  · simp [get_dead_letters_fs, hid, h]
  · simp [get_state_fs, hid, h]

/-- C10 witness: on the empty store, transition and dead-letter reads of
project-1 return empty lists while the state read fails. -/
theorem C10_witness :
    get_transitions_fs ⟨fun _ => none, fun _ => none, fun _ => none⟩ "project-1"
      none none none = Except.ok [] ∧
    get_dead_letters_fs ⟨fun _ => none, fun _ => none, fun _ => none⟩ "project-1"
      none none false = Except.ok [] ∧
    get_state_fs ⟨fun _ => none, fun _ => none, fun _ => none⟩ "project-1" =
      Except.error ("State file not found: project-1") := by
  have h := C10_missing_files ⟨fun _ => none, fun _ => none, fun _ => none⟩ "project-1"
    none none none none false (by decide)
  exact ⟨h.1 rfl, h.2.1 rfl, h.2.2 rfl⟩

end Somas
